import Mathlib

/-!
Shallow embedding of `nrf52-hal-common/src/rtc.rs`: a typestate wrapper
around an nRF RTC peripheral register block.

The Rust driver is a struct `Rtc<T, M>` holding a register-block handle
`T` and a phantom mode tag `M ∈ {Stopped, Started}`.  We model the
register block as an explicit record of the register state the driver
touches, the mode tag as an index of the wrapper type, and each method
as a pure state-passing function.  Register writes that trigger hardware
tasks (`TASKS_START` / `TASKS_STOP`) are modelled by their effect on the
counter's running state (a `Bool` field), since the written one-shot
value is not itself latched state.
-/

namespace NrfRtc

/-- Mode tags of the typestate wrapper: the Rust code has two zero-size
type-state structs `Stopped` and `Started`. -/
inductive Mode
  | Stopped
  | Started
deriving DecidableEq

/-- Interrupts/Events that can be generated by the RTCn peripheral
(`enum RtcInterrupt`). -/
inductive RtcInterrupt
  | Tick
  | Overflow
  | Compare0
  | Compare1
  | Compare2
  | Compare3
deriving DecidableEq

/-- Compare registers available on the RTCn (`enum RtcCompareReg`). -/
inductive RtcCompareReg
  | Compare0
  | Compare1
  | Compare2
  | Compare3
deriving DecidableEq

/-- Error types associated with the RTC peripheral interface
(`enum Error`). -/
inductive Error
  | PrescalerOutOfRange
  | CompareOutOfRange
deriving DecidableEq

/-- The per-stimulus enable bits of the INTEN / EVTEN hardware state,
one bit per field named as in the register description (tick, ovrflw,
compare0..compare3).  The driver manipulates them through the
set/clear registers `intenset`/`intenclr` (resp. `evtenset`/`evtenclr`);
writing a field's set bit turns the bit on, writing its clear bit turns
it off. -/
structure EnableBits where
  tick : Bool
  ovrflw : Bool
  compare0 : Bool
  compare1 : Bool
  compare2 : Bool
  compare3 : Bool
deriving DecidableEq

/-- Update the enable bit selected by a stimulus, mirroring the six-way
`match` of `enable_interrupt` / `disable_interrupt` /
`enable_event` / `disable_event` (`b = true` for the `set` register,
`b = false` for the `clear` register). -/
def EnableBits.writeStim (e : EnableBits) (int : RtcInterrupt) (b : Bool) : EnableBits :=
  match int with
  | .Tick => { e with tick := b }
  | .Overflow => { e with ovrflw := b }
  | .Compare0 => { e with compare0 := b }
  | .Compare1 => { e with compare1 := b }
  | .Compare2 => { e with compare2 := b }
  | .Compare3 => { e with compare3 := b }

/-- The RTC register-block state the driver reads or writes
(`rtc0::RegisterBlock`): the event flag registers, the four compare
registers `cc[0..4]`, the `counter` and `prescaler` registers, the
interrupt/event enable state, and the counter's running state driven by
the one-shot `tasks_start` / `tasks_stop` writes. -/
structure RegisterBlock where
  running : Bool
  counter : Nat
  prescaler : Nat
  cc0 : Nat
  cc1 : Nat
  cc2 : Nat
  cc3 : Nat
  inten : EnableBits
  evten : EnableBits
  events_tick : Nat
  events_ovrflw : Nat
  events_compare0 : Nat
  events_compare1 : Nat
  events_compare2 : Nat
  events_compare3 : Nat
deriving DecidableEq

/-- Effect of `self.periph.tasks_start.write(|w| w.bits(1))`: the
hardware starts the counter. -/
def tasks_start_write (rb : RegisterBlock) : RegisterBlock :=
  { rb with running := true }

/-- Effect of `self.periph.tasks_stop.write(|w| w.bits(1))`: the
hardware stops the counter. -/
def tasks_stop_write (rb : RegisterBlock) : RegisterBlock :=
  { rb with running := false }

/-- `Rtc::enable_interrupt`: set the stimulus's bit via `intenset`. -/
def enable_interrupt (rb : RegisterBlock) (int : RtcInterrupt) : RegisterBlock :=
  { rb with inten := rb.inten.writeStim int true }

/-- `Rtc::disable_interrupt`: clear the stimulus's bit via `intenclr`. -/
def disable_interrupt (rb : RegisterBlock) (int : RtcInterrupt) : RegisterBlock :=
  { rb with inten := rb.inten.writeStim int false }

/-- `Rtc::enable_event`: set the stimulus's bit via `evtenset`. -/
def enable_event (rb : RegisterBlock) (evt : RtcInterrupt) : RegisterBlock :=
  { rb with evten := rb.evten.writeStim evt true }

/-- `Rtc::disable_event`: clear the stimulus's bit via `evtenclr`. -/
def disable_event (rb : RegisterBlock) (evt : RtcInterrupt) : RegisterBlock :=
  { rb with evten := rb.evten.writeStim evt false }

/-- Read the event flag register selected by a stimulus (the `r.bits()`
side of the six-way `match` in `get_event_triggered`). -/
def eventRead (rb : RegisterBlock) (evt : RtcInterrupt) : Nat :=
  match evt with
  | .Tick => rb.events_tick
  | .Overflow => rb.events_ovrflw
  | .Compare0 => rb.events_compare0
  | .Compare1 => rb.events_compare1
  | .Compare2 => rb.events_compare2
  | .Compare3 => rb.events_compare3

/-- Write the event flag register selected by a stimulus (the
`w.bits(set_val)` side of the six-way `match` in `get_event_triggered`). -/
def eventWrite (rb : RegisterBlock) (evt : RtcInterrupt) (v : Nat) : RegisterBlock :=
  match evt with
  | .Tick => { rb with events_tick := v }
  | .Overflow => { rb with events_ovrflw := v }
  | .Compare0 => { rb with events_compare0 := v }
  | .Compare1 => { rb with events_compare1 := v }
  | .Compare2 => { rb with events_compare2 := v }
  | .Compare3 => { rb with events_compare3 := v }

/-- `Rtc::get_event_triggered`: one atomic `modify` on the stimulus's
event flag register.  `orig` captures the register value before the
write; the register is then overwritten with `set_val` (0 to clear if
`clear_on_read`, else 1); the method returns `orig == 1`. -/
def get_event_triggered (rb : RegisterBlock) (evt : RtcInterrupt)
    (clear_on_read : Bool) : RegisterBlock × Bool :=
  let orig := eventRead rb evt
  let set_val : Nat := if clear_on_read then 0 else 1
  (eventWrite rb evt set_val, orig == 1)

/-- The index computed from a compare-register selector by the `match`
inside `set_compare`. -/
def ccIndex : RtcCompareReg → Nat
  | .Compare0 => 0
  | .Compare1 => 1
  | .Compare2 => 2
  | .Compare3 => 3

/-- Read `cc[i]`. -/
def ccRead (rb : RegisterBlock) (i : Nat) : Nat :=
  match i with
  | 0 => rb.cc0
  | 1 => rb.cc1
  | 2 => rb.cc2
  | 3 => rb.cc3
  | _ => 0

/-- Write `cc[i]`. -/
def ccWrite (rb : RegisterBlock) (i : Nat) (v : Nat) : RegisterBlock :=
  match i with
  | 0 => { rb with cc0 := v }
  | 1 => { rb with cc1 := v }
  | 2 => { rb with cc2 := v }
  | 3 => { rb with cc3 := v }
  | _ => rb

/-- `Rtc::set_compare`: reject values `>= 1 << 24` with
`Error::CompareOutOfRange` before any register access; otherwise write
the value into `cc[reg]` and return `Ok(())`. -/
def set_compare (rb : RegisterBlock) (reg : RtcCompareReg) (val : Nat) :
    RegisterBlock × Except Error Unit :=
  if val ≥ (1 <<< 24) then
    (rb, .error .CompareOutOfRange)
  else
    (ccWrite rb (ccIndex reg) val, .ok ())

/-- `Rtc::get_counter`: read of the `counter` register. -/
def get_counter (rb : RegisterBlock) : Nat :=
  rb.counter

/-- The typestate wrapper `Rtc<T, M>`: owns the register block and
carries the phantom mode tag as a type index. -/
structure Rtc (m : Mode) where
  periph : RegisterBlock

/-- `RtcExt::constrain`: wrap a raw register-block handle into the
high-level interface, always tagged `Stopped`; no hardware access. -/
def constrain (p : RegisterBlock) : Rtc .Stopped :=
  { periph := p }

/-- `Rtc::enable_counter` (available for every mode `M`): write the
one-shot start task and re-tag the wrapper `Started`. -/
def Rtc.enable_counter {m : Mode} (w : Rtc m) : Rtc .Started :=
  { periph := tasks_start_write w.periph }

/-- `Rtc::disable_counter` (available for every mode `M`): write the
one-shot stop task and re-tag the wrapper `Stopped`. -/
def Rtc.disable_counter {m : Mode} (w : Rtc m) : Rtc .Stopped :=
  { periph := tasks_stop_write w.periph }

/-- `Rtc::release`: destructure the wrapper and hand back the register
block; issues no register access, so no configuration is reset. -/
def Rtc.release {m : Mode} (w : Rtc m) : RegisterBlock :=
  w.periph

/-- `Rtc::set_prescaler`, defined only on `Rtc<T, Stopped>` (the Rust
impl block is restricted to the `Stopped` tag, so the method does not
exist on a `Started` wrapper): reject values `>= 1 << 12` with
`Error::PrescalerOutOfRange` before any register access; otherwise
write the value into the `prescaler` register and return `Ok(())`. -/
def Rtc.set_prescaler (w : Rtc .Stopped) (prescaler : Nat) :
    Rtc .Stopped × Except Error Unit :=
  if prescaler ≥ (1 <<< 12) then
    (w, .error .PrescalerOutOfRange)
  else
    ({ periph := { w.periph with prescaler := prescaler } }, .ok ())

/-- The public API surface of the wrapper, as a deep embedding: one
constructor per Rust method, indexed by the mode tag of the receiver
and of the returned wrapper.  Methods from the generic
`impl<T, M> Rtc<T, M>` block exist at every mode `m`; `setPrescaler`
mirrors the `impl<T> Rtc<T, Stopped>` block and exists only at
`Stopped`, so a call to it on a `Started` wrapper is unrepresentable. -/
inductive ApiCall : Mode → Mode → Type
  | enableCounter {m : Mode} : ApiCall m .Started
  | disableCounter {m : Mode} : ApiCall m .Stopped
  | enableInterrupt {m : Mode} (int : RtcInterrupt) : ApiCall m m
  | disableInterrupt {m : Mode} (int : RtcInterrupt) : ApiCall m m
  | enableEvent {m : Mode} (evt : RtcInterrupt) : ApiCall m m
  | disableEvent {m : Mode} (evt : RtcInterrupt) : ApiCall m m
  | getEventTriggered {m : Mode} (evt : RtcInterrupt) (clear_on_read : Bool) : ApiCall m m
  | setCompare {m : Mode} (reg : RtcCompareReg) (val : Nat) : ApiCall m m
  | getCounter {m : Mode} : ApiCall m m
  | setPrescaler (v : Nat) : ApiCall .Stopped .Stopped

instance : DecidableEq (Except Error Unit)
  | .ok (), .ok () => isTrue rfl
  | .ok (), .error _ => isFalse (fun h => Except.noConfusion h)
  | .error _, .ok () => isFalse (fun h => Except.noConfusion h)
  | .error e, .error e' =>
      if h : e = e' then isTrue (by rw [h]) else isFalse (fun hh => h (Except.error.inj hh))

/-- Return values of the API methods. -/
inductive Output
  | unit
  | bool (b : Bool)
  | nat (n : Nat)
  | result (r : Except Error Unit)
deriving DecidableEq

/-- Semantics of one API call on the register block, delegating to the
per-method definitions. -/
def step {m m' : Mode} (c : ApiCall m m') (rb : RegisterBlock) :
    RegisterBlock × Output :=
  match c with
  | .enableCounter => (tasks_start_write rb, .unit)
  | .disableCounter => (tasks_stop_write rb, .unit)
  | .enableInterrupt int => (enable_interrupt rb int, .unit)
  | .disableInterrupt int => (disable_interrupt rb int, .unit)
  | .enableEvent evt => (enable_event rb evt, .unit)
  | .disableEvent evt => (disable_event rb evt, .unit)
  | .getEventTriggered evt clear =>
      let p := get_event_triggered rb evt clear
      (p.1, .bool p.2)
  | .setCompare reg val =>
      let p := set_compare rb reg val
      (p.1, .result p.2)
  | .getCounter => (rb, .nat (get_counter rb))
  | .setPrescaler v =>
      let p := Rtc.set_prescaler (constrain rb) v
      (p.1.periph, .result p.2)

/-- A sequence of API calls, each starting in the mode the previous one
ended in (the only way mode tags can evolve through the API). -/
inductive Trace : Mode → Mode → Type
  | nil {m : Mode} : Trace m m
  | cons {m m' m'' : Mode} (c : ApiCall m m') (t : Trace m' m'') : Trace m m''

/-- Final register state after running a trace. -/
def runTrace {m m' : Mode} (t : Trace m m') (rb : RegisterBlock) : RegisterBlock :=
  match t with
  | .nil => rb
  | .cons c t => runTrace t (step c rb).1

/-- The list of values returned by the calls of a trace: everything the
caller can observe through the public API. -/
def outputs {m m' : Mode} (t : Trace m m') (rb : RegisterBlock) : List Output :=
  match t with
  | .nil => []
  | .cons c t => (step c rb).2 :: outputs t (step c rb).1

/-- Whether a call is `disable_counter`. -/
def ApiCall.isDisableCounter {m m' : Mode} : ApiCall m m' → Bool
  | .disableCounter => true
  | _ => false

/-- Whether a trace contains a `disable_counter` call. -/
def usesDisableCounter {m m' : Mode} : Trace m m' → Bool
  | .nil => false
  | .cons c t => c.isDisableCounter || usesDisableCounter t

/-- Whether a call is one of the two counter-control methods
(`enable_counter` / `disable_counter`). -/
def ApiCall.isCounterControl {m m' : Mode} : ApiCall m m' → Bool
  | .enableCounter => true
  | .disableCounter => true
  | _ => false

/-- All register state other than the event flag registers, as one
tuple (used to state frame conditions). -/
def nonEventState (rb : RegisterBlock) :
    Bool × Nat × Nat × Nat × Nat × Nat × Nat × EnableBits × EnableBits :=
  (rb.running, rb.counter, rb.prescaler, rb.cc0, rb.cc1, rb.cc2, rb.cc3,
   rb.inten, rb.evten)

/-- All register state other than the compare registers, as one tuple
(used to state frame conditions). -/
def nonCompareState (rb : RegisterBlock) :
    Bool × Nat × Nat × EnableBits × EnableBits × Nat × Nat × Nat × Nat × Nat × Nat :=
  (rb.running, rb.counter, rb.prescaler, rb.inten, rb.evten, rb.events_tick,
   rb.events_ovrflw, rb.events_compare0, rb.events_compare1, rb.events_compare2,
   rb.events_compare3)

/-- A concrete register block used to instantiate theorems with
hypotheses. -/
def rb0 : RegisterBlock :=
  { running := false
    counter := 0
    prescaler := 7
    cc0 := 0
    cc1 := 0
    cc2 := 0
    cc3 := 0
    inten := ⟨false, false, false, false, false, false⟩
    evten := ⟨false, false, false, false, false, false⟩
    events_tick := 1
    events_ovrflw := 0
    events_compare0 := 0
    events_compare1 := 0
    events_compare2 := 0
    events_compare3 := 0 }

/-- A concrete trace of calls available on a `Started` wrapper, none of
them `disable_counter`. -/
def tWit : Trace .Started .Started :=
  .cons (.setCompare .Compare0 5)
    (.cons (.getEventTriggered .Tick true)
      (.cons .enableCounter .nil))

theorem one_shl_24 : (1 <<< 24 : Nat) = 16777216 := by decide

theorem one_shl_12 : (1 <<< 12 : Nat) = 4096 := by decide

/-- Helper for C1: along any trace whose start mode is `Started` and
which never calls `disable_counter`, every intermediate mode stays
`Started`, `set_prescaler` is therefore never available, and the
`prescaler` register is untouched. -/
theorem prescaler_frame_aux {m m' : Mode} (t : Trace m m') :
    m = .Started → usesDisableCounter t = false →
    ∀ rb : RegisterBlock, (runTrace t rb).prescaler = rb.prescaler := by
  induction t with
  | nil => intro _ _ rb; rfl
  | cons c t ih =>
    intro hm hu rb
    subst hm
    have h2 : usesDisableCounter t = false := by
      rcases Bool.or_eq_false_iff.mp hu with ⟨_, h⟩
      exact h
    cases c with
    | enableCounter =>
        simp only [runTrace, ih rfl h2]
        simp [step, tasks_start_write]
    | disableCounter =>
        simp [usesDisableCounter, ApiCall.isDisableCounter] at hu
    | enableInterrupt int =>
        simp only [runTrace, ih rfl h2]
        simp [step, enable_interrupt]
    | disableInterrupt int =>
        simp only [runTrace, ih rfl h2]
        simp [step, disable_interrupt]
    | enableEvent evt =>
        simp only [runTrace, ih rfl h2]
        simp [step, enable_event]
    | disableEvent evt =>
        simp only [runTrace, ih rfl h2]
        simp [step, disable_event]
    | getEventTriggered evt clear =>
        simp only [runTrace, ih rfl h2]
        cases evt <;> simp [step, get_event_triggered, eventWrite]
    | setCompare reg val =>
        simp only [runTrace, ih rfl h2]
        by_cases hv : 16777216 ≤ val
        · simp [step, set_compare, one_shl_24, hv]
        · cases reg <;> simp [step, set_compare, one_shl_24, hv, ccIndex, ccWrite]
    | getCounter =>
        simp only [runTrace, ih rfl h2]
        simp [step]

/-- C1: `set_prescaler` exists only at the `Stopped` index of the API
(constructor `ApiCall.setPrescaler : ApiCall .Stopped .Stopped`), so a
call to it on a `Started` wrapper is unrepresentable; consequently no
trace of API calls that starts on a `Started` wrapper and never passes
through `disable_counter` can change the prescaler register. -/
theorem C1_prescaler_unwritable_while_started {m' : Mode}
    (t : Trace .Started m') (rb : RegisterBlock)
    (h : usesDisableCounter t = false) :
    (runTrace t rb).prescaler = rb.prescaler :=
  prescaler_frame_aux t rfl h rb

theorem C1_prescaler_unwritable_while_started_witness :
    usesDisableCounter tWit = false ∧
    (runTrace tWit rb0).prescaler = rb0.prescaler :=
  ⟨by decide,
   C1_prescaler_unwritable_while_started tWit rb0 (by decide)⟩

/-- C2: `get_event_triggered` returns true exactly when the stimulus's
event flag register held 1 before the write; in the same transaction it
overwrites that flag register with 0 when `clear_on_read` is true and
with 1 otherwise; every other event flag register and all non-event
register state are unchanged. -/
theorem C2_get_event_triggered_spec (evt : RtcInterrupt) (clear_on_read : Bool)
    (rb : RegisterBlock) :
    ((get_event_triggered rb evt clear_on_read).2 = true ↔ eventRead rb evt = 1) ∧
    eventRead (get_event_triggered rb evt clear_on_read).1 evt
      = (if clear_on_read then 0 else 1) ∧
    (∀ evt₂ : RtcInterrupt, evt₂ ≠ evt →
      eventRead (get_event_triggered rb evt clear_on_read).1 evt₂
        = eventRead rb evt₂) ∧
    nonEventState (get_event_triggered rb evt clear_on_read).1 = nonEventState rb := by
  refine ⟨?_, ?_, ?_, ?_⟩
  · simp [get_event_triggered]
  · cases evt <;> simp [get_event_triggered, eventRead, eventWrite]
  · intro evt₂ hne
    cases evt <;> cases evt₂ <;>
      simp_all [get_event_triggered, eventRead, eventWrite]
  · cases evt <;> simp [get_event_triggered, eventWrite, nonEventState]

theorem C2_get_event_triggered_spec_witness :
    (RtcInterrupt.Overflow ≠ RtcInterrupt.Tick) ∧
    eventRead (get_event_triggered rb0 .Tick true).1 .Overflow
      = eventRead rb0 .Overflow ∧
    ((get_event_triggered rb0 .Tick true).2 = true ↔ eventRead rb0 .Tick = 1) :=
  ⟨by decide,
   (C2_get_event_triggered_spec .Tick true rb0).2.2.1 .Overflow (by decide),
   (C2_get_event_triggered_spec .Tick true rb0).1⟩

/-- C3: for every mode `m` (the method lives in the mode-generic impl
block, so it is callable on Stopped and Started wrappers alike),
`set_compare` succeeds exactly when the value is below 2^24; on failure
it returns `CompareOutOfRange` and the register block, the target
compare register included, is completely unchanged; on success it
writes the value verbatim into the selected compare register and
touches nothing else. -/
theorem C3_set_compare_spec (m : Mode) (ch : RtcCompareReg) (v : Nat)
    (rb : RegisterBlock) :
    ((step (ApiCall.setCompare (m := m) ch v) rb).2 = .result (.ok ()) ↔
      v < 16777216) ∧
    (v < 16777216 →
      ccRead (step (ApiCall.setCompare (m := m) ch v) rb).1 (ccIndex ch) = v ∧
      (∀ j : Fin 4, (j : Nat) ≠ ccIndex ch →
        ccRead (step (ApiCall.setCompare (m := m) ch v) rb).1 (j : Nat)
          = ccRead rb (j : Nat)) ∧
      nonCompareState (step (ApiCall.setCompare (m := m) ch v) rb).1
        = nonCompareState rb) ∧
    (16777216 ≤ v →
      (step (ApiCall.setCompare (m := m) ch v) rb).2
        = .result (.error .CompareOutOfRange) ∧
      (step (ApiCall.setCompare (m := m) ch v) rb).1 = rb) := by
  by_cases hv : 16777216 ≤ v
  · refine ⟨?_, fun hlt => absurd hlt (by omega), fun _ => ?_⟩
    · simp [step, set_compare, one_shl_24, hv]
    · simp [step, set_compare, one_shl_24, hv]
  · have hlt : v < 16777216 := by omega
    refine ⟨?_, fun _ => ?_, fun hge => absurd hge hv⟩
    · simp [step, set_compare, one_shl_24, hv, hlt]
    · refine ⟨?_, ?_, ?_⟩
      all_goals simp only [step, set_compare, one_shl_24, if_neg hv]
      · cases ch <;> simp [ccIndex, ccWrite, ccRead]
      · intro j hj
        cases ch <;> fin_cases j <;> simp_all [ccIndex, ccWrite, ccRead]
      · cases ch <;> simp [ccIndex, ccWrite, nonCompareState]

theorem C3_set_compare_spec_witness :
    (16777215 < 16777216) ∧ ((2 : Nat) ≠ ccIndex .Compare3) ∧
    ccRead (step (ApiCall.setCompare (m := .Started) .Compare3 16777215) rb0).1
      (ccIndex .Compare3) = 16777215 ∧
    ccRead (step (ApiCall.setCompare (m := .Started) .Compare3 16777215) rb0).1
      ((⟨2, by decide⟩ : Fin 4) : Nat) = ccRead rb0 ((⟨2, by decide⟩ : Fin 4) : Nat) :=
  ⟨by decide, by decide,
   ((C3_set_compare_spec .Started .Compare3 16777215 rb0).2.1 (by decide)).1,
   ((C3_set_compare_spec .Started .Compare3 16777215 rb0).2.1 (by decide)).2.1
     ⟨2, by decide⟩ (by decide)⟩

/-- C4: on a Stopped wrapper, `set_prescaler` succeeds exactly when the
value is below 2^12; on failure it returns `PrescalerOutOfRange` and
the wrapper (hence every register, the prescaler included) is
unchanged; on success the prescaler register is set to the value and
every other register is unchanged. -/
theorem C4_set_prescaler_spec (w : Rtc .Stopped) (v : Nat) :
    ((w.set_prescaler v).2 = .ok () ↔ v < 4096) ∧
    (v < 4096 →
      (w.set_prescaler v).1.periph = { w.periph with prescaler := v }) ∧
    (4096 ≤ v →
      (w.set_prescaler v).2 = .error .PrescalerOutOfRange ∧
      (w.set_prescaler v).1 = w) := by
  by_cases hv : 4096 ≤ v
  · refine ⟨?_, fun hlt => absurd hlt (by omega), fun _ => ?_⟩
    · simp [Rtc.set_prescaler, one_shl_12, hv]
    · simp [Rtc.set_prescaler, one_shl_12, hv]
  · have hlt : v < 4096 := by omega
    refine ⟨?_, fun _ => ?_, fun hge => absurd hge hv⟩
    · simp [Rtc.set_prescaler, one_shl_12, hv, hlt]
    · simp [Rtc.set_prescaler, one_shl_12, hv]

theorem C4_set_prescaler_spec_witness :
    ((4095 : Nat) < 4096) ∧
    ((constrain rb0).set_prescaler 4095).1.periph
      = { rb0 with prescaler := 4095 } ∧
    (((constrain rb0).set_prescaler 4095).2 = .ok () ↔ (4095 : Nat) < 4096) :=
  ⟨by decide,
   (C4_set_prescaler_spec (constrain rb0) 4095).2.1 (by decide),
   (C4_set_prescaler_spec (constrain rb0) 4095).1⟩

/-- C5 counterexample: the claim says the counter-control state machine
has exactly two edges (`enable_counter` callable on a Stopped wrapper,
`disable_counter` on a Started one).  But both methods live in the
mode-generic `impl<T, M>` block, so `enable_counter` is also a
counter-control edge whose source is `Started`: the concrete call below
is applied to a wrapper that is already `Started`, giving a
Started→Started edge beyond the claimed two. -/
theorem C5_counterexample :
    ApiCall.isCounterControl (ApiCall.enableCounter (m := .Started)) = true ∧
    ((constrain rb0).enable_counter.enable_counter).periph.running = true :=
  ⟨rfl, rfl⟩

/-- C5 amended: the machine has exactly two states, and `enable_counter`
and `disable_counter` are each callable on a wrapper in either mode
(four edges in total); `enable_counter` writes the one-shot start task
and re-tags the wrapper `Started`, `disable_counter` writes the
one-shot stop task and re-tags it `Stopped`; both are total, so they
always succeed. -/
theorem C5_counter_control_amended :
    (∀ (m : Mode) (w : Rtc m),
      w.enable_counter.periph = { w.periph with running := true } ∧
      w.disable_counter.periph = { w.periph with running := false }) ∧
    (∀ m : Mode, m = .Stopped ∨ m = .Started) := by
  refine ⟨fun m w => ⟨rfl, rfl⟩, fun m => ?_⟩
  cases m
  · exact Or.inl rfl
  · exact Or.inr rfl

/-- C6: if a stimulus's event flag register holds 1, then
`get_event_triggered` with `clear_on_read = true` returns true and an
immediate repeat returns false, whereas with `clear_on_read = false` it
returns true and an immediate repeat still returns true. -/
theorem C6_event_ack_repeat (evt : RtcInterrupt) (rb : RegisterBlock)
    (h : eventRead rb evt = 1) :
    (get_event_triggered rb evt true).2 = true ∧
    (get_event_triggered (get_event_triggered rb evt true).1 evt true).2 = false ∧
    (get_event_triggered rb evt false).2 = true ∧
    (get_event_triggered (get_event_triggered rb evt false).1 evt false).2 = true := by
  cases evt <;> simp_all [get_event_triggered, eventRead, eventWrite]

theorem C6_event_ack_repeat_witness :
    eventRead rb0 .Tick = 1 ∧
    (get_event_triggered rb0 .Tick true).2 = true ∧
    (get_event_triggered (get_event_triggered rb0 .Tick true).1 .Tick true).2
      = false :=
  ⟨by decide,
   (C6_event_ack_repeat .Tick rb0 (by decide)).1,
   (C6_event_ack_repeat .Tick rb0 (by decide)).2.1⟩

/-- C7: round-trip: after a successful `set_compare` of an in-range
value, reading the selected compare register yields exactly that
value. -/
theorem C7_set_compare_roundtrip (ch : RtcCompareReg) (v : Nat)
    (rb : RegisterBlock) (h : v < 16777216) :
    ccRead (set_compare rb ch v).1 (ccIndex ch) = v := by
  have hv : ¬ (16777216 : Nat) ≤ v := by omega
  cases ch <;> simp [set_compare, one_shl_24, hv, ccIndex, ccWrite, ccRead]

theorem C7_set_compare_roundtrip_witness :
    (16777215 : Nat) < 16777216 ∧
    ccRead (set_compare rb0 .Compare2 16777215).1 (ccIndex .Compare2) = 16777215 :=
  ⟨by decide, C7_set_compare_roundtrip .Compare2 16777215 rb0 (by decide)⟩

/-- Agreement on every register field the API can read or hold, i.e.
everything except the counter-running flag (which no method reads and
which only tracks the one-shot start/stop tasks). -/
def SameObs (a b : RegisterBlock) : Prop :=
  a.counter = b.counter ∧ a.prescaler = b.prescaler ∧
  a.cc0 = b.cc0 ∧ a.cc1 = b.cc1 ∧ a.cc2 = b.cc2 ∧ a.cc3 = b.cc3 ∧
  a.inten = b.inten ∧ a.evten = b.evten ∧
  a.events_tick = b.events_tick ∧ a.events_ovrflw = b.events_ovrflw ∧
  a.events_compare0 = b.events_compare0 ∧ a.events_compare1 = b.events_compare1 ∧
  a.events_compare2 = b.events_compare2 ∧ a.events_compare3 = b.events_compare3

/-- One API call cannot distinguish two `SameObs` register blocks: it
returns the same value on both and keeps them `SameObs`. -/
theorem step_sameObs {m m' : Mode} (c : ApiCall m m') {a b : RegisterBlock}
    (h : SameObs a b) :
    (step c a).2 = (step c b).2 ∧ SameObs (step c a).1 (step c b).1 := by
  obtain ⟨h1, h2, h3, h4, h5, h6, h7, h8, h9, h10, h11, h12, h13, h14⟩ := h
  cases c with
  | enableCounter =>
      exact ⟨rfl, by simp_all [step, tasks_start_write, SameObs]⟩
  | disableCounter =>
      exact ⟨rfl, by simp_all [step, tasks_stop_write, SameObs]⟩
  | enableInterrupt int =>
      exact ⟨rfl, by simp_all [step, enable_interrupt, SameObs]⟩
  | disableInterrupt int =>
      exact ⟨rfl, by simp_all [step, disable_interrupt, SameObs]⟩
  | enableEvent evt =>
      exact ⟨rfl, by simp_all [step, enable_event, SameObs]⟩
  | disableEvent evt =>
      exact ⟨rfl, by simp_all [step, disable_event, SameObs]⟩
  | getEventTriggered evt clear =>
      refine ⟨?_, ?_⟩
      · cases evt <;>
          simp_all [step, get_event_triggered, eventRead]
      · cases evt <;>
          simp_all [step, get_event_triggered, eventWrite, SameObs]
  | setCompare reg val =>
      by_cases hv : 16777216 ≤ val
      · refine ⟨by simp [step, set_compare, one_shl_24, hv], ?_⟩
        simp only [step, set_compare, one_shl_24, if_pos hv]
        exact ⟨h1, h2, h3, h4, h5, h6, h7, h8, h9, h10, h11, h12, h13, h14⟩
      · refine ⟨by simp [step, set_compare, one_shl_24, hv], ?_⟩
        simp only [step, set_compare, one_shl_24, if_neg hv]
        cases reg <;> simp_all [ccIndex, ccWrite, SameObs]
  | getCounter =>
      exact ⟨by simp [step, get_counter, h2, h1], by simp_all [step, SameObs]⟩
  | setPrescaler v =>
      by_cases hv : 4096 ≤ v
      · refine ⟨by simp [step, Rtc.set_prescaler, one_shl_12, hv], ?_⟩
        simp only [step, Rtc.set_prescaler, one_shl_12, if_pos hv, constrain]
        exact ⟨h1, h2, h3, h4, h5, h6, h7, h8, h9, h10, h11, h12, h13, h14⟩
      · refine ⟨by simp [step, Rtc.set_prescaler, one_shl_12, hv], ?_⟩
        simp only [step, Rtc.set_prescaler, one_shl_12, if_neg hv, constrain]
        simp_all [SameObs]

/-- No trace of API calls can distinguish two `SameObs` register
blocks. -/
theorem outputs_sameObs {m m' : Mode} (t : Trace m m') :
    ∀ {a b : RegisterBlock}, SameObs a b → outputs t a = outputs t b := by
  induction t with
  | nil => intro a b _; rfl
  | cons c t ih =>
      intro a b h
      have hs := step_sameObs c h
      simp [outputs, hs.1, ih hs.2]

/-- C8: starting from any Stopped wrapper, `enable_counter` followed by
`disable_counter` yields a wrapper that no sequence of public API calls
can distinguish from the original: every trace returns the same list of
values on both, and every register field the API can read or hold is
unchanged.  (The only residue is the counter-running flag, which is
written back to false and is not observable through any method.) -/
theorem C8_enable_disable_roundtrip (w : Rtc .Stopped) :
    (∀ (m' : Mode) (t : Trace .Stopped m'),
      outputs t (w.enable_counter.disable_counter.periph)
        = outputs t w.periph) ∧
    SameObs (w.enable_counter.disable_counter.periph) w.periph ∧
    w.enable_counter.disable_counter.periph.running = false := by
  have hs : SameObs (w.enable_counter.disable_counter.periph) w.periph := by
    simp [Rtc.enable_counter, Rtc.disable_counter, tasks_start_write,
      tasks_stop_write, SameObs]
  exact ⟨fun m' t => outputs_sameObs t hs, hs, rfl⟩

/-- C9: `release` is defined on a wrapper in either mode and returns
the underlying register block as is: no register write happens, so the
prescaler, the compare registers and the enabled interrupt/event bits
all persist exactly as configured. -/
theorem C9_release_preserves_registers (m : Mode) (w : Rtc m) :
    w.release = w.periph ∧
    w.release.prescaler = w.periph.prescaler ∧
    w.release.cc0 = w.periph.cc0 ∧ w.release.cc1 = w.periph.cc1 ∧
    w.release.cc2 = w.periph.cc2 ∧ w.release.cc3 = w.periph.cc3 ∧
    w.release.inten = w.periph.inten ∧ w.release.evten = w.periph.evten ∧
    w.release.running = w.periph.running :=
  ⟨rfl, rfl, rfl, rfl, rfl, rfl, rfl, rfl, rfl⟩

/-- C10: re-constraining a released handle always yields a
`Stopped`-tagged wrapper (`constrain`'s result type is `Rtc .Stopped`,
whatever mode `m` the wrapper had) with every register unchanged; in
particular, on a Started wrapper whose hardware counter is running, the
release/constrain cycle produces a Stopped-tagged wrapper while the
counter is still running, so the mode tag does not track the hardware
running state across the cycle. -/
theorem C10_release_constrain_resets_tag_not_hardware
    (m : Mode) (w : Rtc m) (s : Rtc .Started)
    (hrun : s.periph.running = true) :
    (constrain w.release).periph = w.periph ∧
    (constrain s.release).periph = s.periph ∧
    (constrain s.release).periph.running = true :=
  ⟨rfl, rfl, hrun⟩

theorem C10_release_constrain_resets_tag_not_hardware_witness :
    ((constrain rb0).enable_counter.periph.running = true) ∧
    (constrain ((constrain rb0).enable_counter.release)).periph.running = true :=
  ⟨rfl,
   (C10_release_constrain_resets_tag_not_hardware .Started
      ((constrain rb0).enable_counter) ((constrain rb0).enable_counter)
      rfl).2.2⟩

end NrfRtc
